import Mathlib

/-!
Verification of the command authorization and release-track suggestion engine
of the gcloud-mcp server.

The shallow embedding below has two layers:

* The pattern matcher, access control list (ACL) and suggestion engine
  (`denylist.ts` / `suggest.ts`) are not present among the available sources;
  only their unit tests and their caller are.  These definitions are marked
  `Modelled from the spec:` and follow the specification's description of the
  algorithms (token normalization, allow/deny prefix matching with
  release-track semantics, ACL combination, candidate search).  The models,
  in addition, satisfy every behaviour pinned down by the unit tests that are
  present in the sources.

* The tool handler `createRunGcloudCommand` (`run_gcloud_command.ts`) is
  present in the sources and is embedded directly, with the canonicalizer
  (`gcloud.lint`) and the executor (`gcloud.invoke`) as explicit functional
  parameters, and with an explicit trace of the calls made to each so that
  call-count and frame properties can be stated.
-/

set_option maxRecDepth 100000

/-- Modelled from the spec: the recognized release-track identifiers
(`denylist.ts` is missing from the sources).  "Recognized track identifiers
are exactly `alpha`, `beta`, `preview` (case-insensitive) when they appear as
the first token of a command or pattern." -/
def releaseTracks : List String := ["alpha", "beta", "preview"]

/-- Helper for `tokenize`: walks the lowercased character list, accumulating
the current word (in reverse) and emitting a token at every whitespace run
boundary.  Splitting on whitespace characters and dropping empty words is the
same operation as trimming and then splitting on runs of whitespace. -/
def tokenizeAux : List Char → List Char → List String
  | [], [] => []
  | [], w => [String.mk w.reverse]
  | ch :: rest, w =>
    if ch.isWhitespace then
      match w with
      | [] => tokenizeAux rest []
      | _ => String.mk w.reverse :: tokenizeAux rest []
    else tokenizeAux rest (ch :: w)

/-- Modelled from the spec: pattern/command normalization (`denylist.ts` is
missing from the sources).  "Normalization = trim surrounding whitespace,
lowercase, split on runs of whitespace." -/
def tokenize (s : String) : List String :=
  tokenizeAux (s.data.map Char.toLower) []

/-- Modelled from the spec: token-granular comparison of a pattern
against the front of a command (`denylist.ts` is missing from the sources).
"A pattern `P` matches a token sequence `C` as a prefix if
`len(C) >= len(P)` and `C[0..len(P)) == P` element-wise." -/
def tokenPre : List String → List String → Bool
  | [], _ => true
  | _ :: _, [] => false
  | p :: ps, c :: cs => p == c && tokenPre ps cs

/-- Modelled from the spec: removal of a leading release-track token from a
command's tokens (`denylist.ts` is missing from the sources).  "strip any
leading release-track token from the command tokens before prefix-matching". -/
def stripTrack (c : List String) : List String :=
  match c with
  | [] => []
  | t :: rest => if releaseTracks.contains t then rest else t :: rest

/-- Modelled from the spec: matching of a single deny pattern
(`denylist.ts` is missing from the sources).  "If the pattern's first token
IS a recognized release-track identifier, match it as a plain prefix against
the raw command tokens...  If the pattern's first token is NOT a
release-track identifier, strip any leading release-track token from the
command tokens before prefix-matching." -/
def denyPatternMatches (p c : List String) : Bool :=
  if releaseTracks.contains (p.headD "") then tokenPre p c
  else tokenPre p (stripTrack c)

/-- Modelled from the spec: matching of a single allow pattern
(`denylist.ts` is missing from the sources).  "Allow semantics: plain prefix
match with no track stripping." -/
def allowPatternMatches (p c : List String) : Bool :=
  tokenPre p c

/-- Modelled from the spec: `denyCommands(denylist).matches(command)`
(`denylist.ts` is missing from the sources).  Any deny pattern matching the
normalized command makes the denylist match; an empty deny-set matches
nothing. -/
def denyCommands (denylist : List String) (command : String) : Bool :=
  denylist.any (fun d => denyPatternMatches (tokenize d) (tokenize command))

/-- Modelled from the spec: `allowCommands(allowlist).matches(command)`
(`denylist.ts` is missing from the sources).  "An empty allow-set matches
everything"; otherwise any allow pattern matching the normalized command
makes the allowlist match. -/
def allowCommands (allowlist : List String) (command : String) : Bool :=
  allowlist.isEmpty || allowlist.any (fun a => allowPatternMatches (tokenize a) (tokenize command))

/-- The `MatchResult` returned by `ACL.check`: a permit/deny decision plus a
human-readable message. -/
structure MatchResult where
  permitted : Bool
  message : String
deriving Repr, DecidableEq

/-- Modelled from the spec: the access control list state (`denylist.ts` and
the fixed default deny list of `index.ts` are missing from the sources).
"One optional user Allow-RuleSet XOR one optional user Deny-RuleSet, plus one
always-present Default-Deny-RuleSet (immutable, not user-configurable)."
The contents of the fixed default deny list are abstracted as a field. -/
structure AccessControlList where
  userAllow : Option (List String)
  userDeny : Option (List String)
  defaultDeny : List String
deriving Repr, DecidableEq

/-- Modelled from the spec: `ACL.check(canonicalPath)` (`denylist.ts` is
missing from the sources).  "If `(userDeny ∪ defaultDeny).matches(tokens)`
then not permitted (denylisted); else if `userAllow.matches(tokens)` (or no
user allow-set configured) then permitted; else not permitted (not in
allowlist)." -/
def ACL.check (acl : AccessControlList) (canonicalPath : String) : MatchResult :=
  if denyCommands (acl.userDeny.getD [] ++ acl.defaultDeny) canonicalPath then
    { permitted := false, message := "Execution denied: the command is on the denylist." }
  else if allowCommands (acl.userAllow.getD []) canonicalPath then
    { permitted := true, message := "" }
  else
    { permitted := false, message := "Execution denied: the command is not on the allowlist." }

/-- Modelled from the spec: the `- <pattern>` lines of `ACL.print`
(`denylist.ts` is missing from the sources). -/
def renderPatternLines (patterns : List String) : String :=
  String.join (patterns.map (fun p => "\n- " ++ p))

/-- Modelled from the spec: `ACL.print()` (`denylist.ts` is missing from the
sources).  "Renders the active configuration for introspection — exactly one
of \"Denylisted commands:\" or \"Allowlisted commands:\" as a header,
followed by one `- <pattern>` line per user-configured pattern (default deny
entries are not listed, since they are not user-configurable)." -/
def ACL.print (acl : AccessControlList) : String :=
  match acl.userAllow with
  | some allow => "Allowlisted commands:" ++ renderPatternLines allow
  | none => "Denylisted commands:" ++ renderPatternLines (acl.userDeny.getD [])

/-- Outcome of one call to the external canonicalizer `gcloud.lint`
(`gcloud.ts`): a successful parse isolating the command from flags and
positionals, a reported failure, or a thrown error (with `none` standing for
a thrown value that is not an `Error`). -/
inductive LintOutcome where
  | success (parsedCommand : String)
  | failure (error : String)
  | thrown (msg : Option String)
deriving Repr, DecidableEq

/-- Outcome of one call to the external executor `gcloud.invoke`
(`gcloud.ts`): an exit code with stdout/stderr, or a thrown error (with
`none` standing for a thrown value that is not an `Error`). -/
inductive InvokeOutcome where
  | result (code : Int) (stdout stderr : String)
  | thrown (msg : Option String)
deriving Repr, DecidableEq

/-- The joined argument string `args.join(' ')` of the TypeScript sources. -/
def joinSp (args : List String) : String :=
  String.intercalate " " args

/-- Modelled from the spec: `parseReleaseTrack` of `suggest.ts` (missing from
the sources).  "Determine the command's current ReleaseTrack by inspecting
the first raw argument token (GA if it is not a recognized track
identifier)"; GA is represented by the empty string. -/
def parseReleaseTrack (command : String) : String :=
  let t := (tokenize command).headD ""
  if releaseTracks.contains t then t else ""

/-- Modelled from the spec: the candidate priority order of `suggest.ts`
(missing from the sources).  "Build a fixed candidate priority order
`[GA, BETA, ALPHA]`, excluding whichever entry equals the current track."
`preview` is intentionally absent. -/
def trackCandidates (current : String) : List String :=
  ["", "beta", "alpha"].filter (fun t => t ≠ current)

/-- Modelled from the spec: construction of a candidate's raw argument list
in `suggest.ts` (missing from the sources).  "Construct the candidate's raw
argument list by replacing the leading track token: remove it entirely for
GA, or insert/replace it with the literal track name otherwise." `base` is
the original arguments with the leading track token (if any) removed. -/
def candidateArgsFor (base : List String) (t : String) : List String :=
  if t == "" then base else t :: base

/-- A candidate track is viable when canonicalizing its joined argument
string succeeds and the ACL permits the resulting canonical path; a lint
failure or thrown error makes the candidate non-viable. -/
def candidateViable (acl : AccessControlList) (lint : String → LintOutcome)
    (base : List String) (t : String) : Bool :=
  match lint (joinSp (candidateArgsFor base t)) with
  | LintOutcome.success parsed => (ACL.check acl parsed).permitted
  | _ => false

/-- Modelled from the spec: the sequential candidate loop of `suggest.ts`
(missing from the sources).  Returns the suggestion produced by the first
viable candidate (or `none`) together with the list of canonicalizer calls
made, in order; a candidate whose canonicalization fails or throws is
skipped and the search proceeds to the next candidate. -/
def tryCandidates (acl : AccessControlList) (lint : String → LintOutcome)
    (base : List String) : List String → Option String × List String
  | [] => (none, [])
  | t :: ts =>
    let cstr := joinSp (candidateArgsFor base t)
    match lint cstr with
    | LintOutcome.success parsed =>
      if (ACL.check acl parsed).permitted then
        (some ("gcloud " ++ cstr), [cstr])
      else
        let r := tryCandidates acl lint base ts
        (r.1, cstr :: r.2)
    | _ =>
      let r := tryCandidates acl lint base ts
      (r.1, cstr :: r.2)

/-- Modelled from the spec: the original arguments with the leading track
token removed (`suggest.ts` is missing from the sources).  This is the shared
tail of every candidate's raw argument list: the original arguments when the
command is GA, the original arguments without their leading track token
otherwise. -/
def suggestBase (args : List String) : List String :=
  if parseReleaseTrack (joinSp args) == "" then args else args.drop 1

/-- Modelled from the spec: `findSuggestedAlternativeCommand` of `suggest.ts`
(missing from the sources), instrumented with the list of canonicalizer
calls it makes.  "Re-canonicalize the full original argument string.  If
canonicalization fails (invalid syntax), return null immediately"; otherwise
try the remaining candidate tracks in priority order and return
`"gcloud " + candidateRawArgsJoined` for the first permitted candidate, or
`null` if none is. -/
def suggestRun (args : List String) (acl : AccessControlList)
    (lint : String → LintOutcome) : Option String × List String :=
  let original := joinSp args
  match lint original with
  | LintOutcome.success _ =>
    let current := parseReleaseTrack original
    let r := tryCandidates acl lint (suggestBase args) (trackCandidates current)
    (r.1, original :: r.2)
  | _ => (none, [original])

/-- Modelled from the spec: the suggestion returned by
`findSuggestedAlternativeCommand` of `suggest.ts` (missing from the
sources). -/
def findSuggestedAlternativeCommand (args : List String)
    (acl : AccessControlList) (lint : String → LintOutcome) : Option String :=
  (suggestRun args acl lint).1

/-- The tool result shape of `run_gcloud_command.ts`: the text content and
the error flag. -/
structure ToolResult where
  text : String
  isError : Bool
deriving Repr, DecidableEq

/-- The `successfulTextResult` helper of `run_gcloud_command.ts`. -/
def successfulTextResult (text : String) : ToolResult :=
  { text := text, isError := false }

/-- The `errorTextResult` helper of `run_gcloud_command.ts`. -/
def errorTextResult (text : String) : ToolResult :=
  { text := text, isError := true }

/-- The `suggestionErrorMessage` text of `run_gcloud_command.ts`. -/
def suggestionErrorMessage (suggestedCommand : String) : String :=
  "Execution denied: This command not permitted. However, a similar command is permitted.\n  To fix the issue, invoke this tool again with this alternative command:\n  " ++ suggestedCommand

/-- The `aclErrorMessage` text of `run_gcloud_command.ts`. -/
def aclErrorMessage (aclMessage : String) : String :=
  aclMessage ++ "\n\n" ++ "To get the access control list details, invoke this tool again with the args [\"gcloud-mcp\", \"debug\", \"config\"]"

/-- The `run_gcloud_command` tool handler of `run_gcloud_command.ts`,
as a function of the canonicalizer `lint` and the executor `invoke`,
instrumented with the list of `lint` call arguments and of `invoke` call
arguments it performs, in order.  The reserved invocation whose joined
arguments equal `"gcloud-mcp debug config"` is answered with `ACL.print`
before any lint or invoke call; otherwise the original argument string is
canonicalized, checked against the ACL, and either executed (with the
original argument array) or refused with a suggested alternative when one
exists. -/
def runGcloudCommandRun (args : List String) (acl : AccessControlList)
    (lint : String → LintOutcome) (invoke : List String → InvokeOutcome) :
    ToolResult × List String × List (List String) :=
  if joinSp args == "gcloud-mcp debug config" then
    (successfulTextResult (ACL.print acl), [], [])
  else
    match lint (joinSp args) with
    | LintOutcome.thrown msg =>
      (errorTextResult ("Failed to parse the input command. " ++ msg.getD "An unknown error occurred."),
        [joinSp args], [])
    | LintOutcome.failure e => (errorTextResult e, [joinSp args], [])
    | LintOutcome.success parsedCommand =>
      let accessControlResult := ACL.check acl parsedCommand
      if accessControlResult.permitted then
        match invoke args with
        | InvokeOutcome.result code stdout stderr =>
          (successfulTextResult
            (stdout ++ if code ≠ 0 || stderr ≠ "" then "\nSTDERR:\n" ++ stderr else ""),
            [joinSp args], [args])
        | InvokeOutcome.thrown msg =>
          (errorTextResult (msg.getD "An unknown error occurred."), [joinSp args], [args])
      else
        let sr := suggestRun args acl lint
        match sr.1 with
        | some suggestion =>
          (errorTextResult (suggestionErrorMessage suggestion), joinSp args :: sr.2, [])
        | none =>
          (errorTextResult (aclErrorMessage accessControlResult.message), joinSp args :: sr.2, [])

/-- True when the token begins with a dash, as in the flag filter of the
lint mock used by the `run_gcloud_command.ts` unit tests. -/
def isDashTok (t : String) : Bool :=
  match t.data with
  | c :: _ => c == '-'
  | [] => false

/-- The canonicalizer mock of the `run_gcloud_command.ts` unit tests: a
successful parse that drops every token beginning with a dash and every
`debug` token. -/
def mockLint (cmd : String) : LintOutcome :=
  LintOutcome.success
    (joinSp ((tokenizeAux cmd.data []).filter (fun t => !isDashTok t && t != "debug")))

/-- The identity canonicalizer mock of the `suggest.ts` unit tests: every
parse succeeds and returns the command unchanged. -/
def idLint (cmd : String) : LintOutcome :=
  LintOutcome.success cmd

/-- A canonicalizer that rejects every command. -/
def failLint (_ : String) : LintOutcome :=
  LintOutcome.failure "invalid command"

/-- A canonicalizer that throws on the single command
`beta components list` and succeeds on every other command, used to witness
that a failure on one suggestion candidate is local to that candidate. -/
def flakyLint (cmd : String) : LintOutcome :=
  if cmd == "beta components list" then LintOutcome.thrown none
  else LintOutcome.success cmd

/-- An executor that reports a clean run printing `output`. -/
def invokeOk (_ : List String) : InvokeOutcome :=
  InvokeOutcome.result 0 "output" ""

-- Validation against the `denylist.ts` unit tests present in the sources.
example : allowCommands [] "compute instances list" = true := by decide
example : allowCommands ["compute instances"] "compute instances list" = true := by decide
example : allowCommands ["compute"] "storage buckets list" = false := by decide
example : allowCommands ["compute", "storage buckets"] "compute instances list" = true := by decide
example : allowCommands ["compute", "storage buckets"] "storage buckets list" = true := by decide
example : allowCommands ["compute", "storage buckets"] "storage blobs list" = false := by decide
example : allowCommands ["app"] "app" = true := by decide
example : allowCommands ["app"] "app deploy" = true := by decide
example : allowCommands ["app"] "alpha app deploy" = false := by decide
example : allowCommands ["app"] "apphub" = false := by decide
example : allowCommands ["app"] "beta apphub" = false := by decide
example : allowCommands ["STORAGE  \r\n\t   "] "storage" = true := by decide
example : allowCommands ["STORAGE  \r\n\t   "] "  storAGE " = true := by decide
example : allowCommands ["STORAGE  \r\n\t   "] "compute" = false := by decide
example : denyCommands [] "compute instances list" = false := by decide
example : denyCommands ["compute instances"] "compute instances list" = true := by decide
example : denyCommands ["compute instances"] "storage buckets list" = false := by decide
example : denyCommands ["compute instances"] "alpha compute instances list" = true := by decide
example : denyCommands ["compute instances"] "beta compute instances list" = true := by decide
example : denyCommands ["compute instances"] "preview compute instances list" = true := by decide
example : denyCommands ["compute instances"] "compute" = false := by decide
example : denyCommands ["compute instances"] "compute networks" = false := by decide
example : denyCommands ["alpha"] "compute" = false := by decide
example : denyCommands ["alpha"] "alpha compute" = true := by decide
example : denyCommands ["alpha"] "alpha storage" = true := by decide
example : denyCommands ["app"] "app" = true := by decide
example : denyCommands ["app"] "app deploy" = true := by decide
example : denyCommands ["app"] "alpha app deploy" = true := by decide
example : denyCommands ["app"] "apphub" = false := by decide
example : denyCommands ["app"] "beta apphub" = false := by decide
example : denyCommands ["\t\n\r   STORAGE   "] "  storAGE " = true := by decide

-- Validation against the `suggest.ts` unit tests present in the sources.
example : parseReleaseTrack "components install" = "" := by decide
example : parseReleaseTrack "beta components install" = "beta" := by decide
example : parseReleaseTrack "alpha components install" = "alpha" := by decide
example :
    findSuggestedAlternativeCommand ["components", "list"]
      { userAllow := some [], userDeny := some [], defaultDeny := [] } failLint = none := by decide
example :
    findSuggestedAlternativeCommand ["beta", "components", "list"]
      { userAllow := some [], userDeny := some [], defaultDeny := [] } idLint
      = some "gcloud components list" := by decide
example :
    findSuggestedAlternativeCommand ["components", "list"]
      { userAllow := some [], userDeny := some [], defaultDeny := [] }
      (fun s => if s == "components list" then LintOutcome.success s
                else LintOutcome.failure "invalid command")
      = none := by decide
example :
    findSuggestedAlternativeCommand ["beta", "components", "list"]
      { userAllow := some [], userDeny := some ["components list"], defaultDeny := [] } idLint
      = none := by decide
example :
    findSuggestedAlternativeCommand ["components", "list"]
      { userAllow := some ["beta components"], userDeny := some [], defaultDeny := [] } idLint
      = some "gcloud beta components list" := by decide
example :
    findSuggestedAlternativeCommand ["beta", "--log-http", "config", "--verbosity", "debug", "list"]
      { userAllow := some [], userDeny := some ["beta config list"], defaultDeny := [] } idLint
      = some "gcloud --log-http config --verbosity debug list" := by decide

-- Validation against the `run_gcloud_command.ts` unit tests present in the
-- sources (the tool is created with the user deny list extended by the
-- default deny entry `interactive`).
example :
    runGcloudCommandRun ["gcloud-mcp", "debug", "config"]
      { userAllow := none, userDeny := some ["compute list"], defaultDeny := ["interactive"] }
      mockLint (fun _ => InvokeOutcome.result 0 "output" "")
      = (successfulTextResult "Denylisted commands:\n- compute list", [], []) := by decide
example :
    runGcloudCommandRun ["gcloud-mcp", "debug", "config"]
      { userAllow := some ["compute list"], userDeny := none, defaultDeny := ["interactive"] }
      mockLint (fun _ => InvokeOutcome.result 0 "output" "")
      = (successfulTextResult "Allowlisted commands:\n- compute list", [], []) := by decide
example :
    let r := runGcloudCommandRun ["compute", "list", "--zone", "eastus1"]
      { userAllow := none, userDeny := some ["compute list"], defaultDeny := ["interactive"] }
      mockLint (fun _ => InvokeOutcome.result 0 "output" "")
    r.1.isError = true ∧ r.2.2 = [] := by decide
example :
    runGcloudCommandRun ["compute", "create"]
      { userAllow := none, userDeny := some ["compute list"], defaultDeny := ["interactive"] }
      mockLint (fun _ => InvokeOutcome.result 0 "output" "")
      = (successfulTextResult "output", ["compute create"], [["compute", "create"]]) := by decide
example :
    runGcloudCommandRun ["compute", "list"]
      { userAllow := some ["compute list"], userDeny := none, defaultDeny := ["interactive"] }
      mockLint (fun _ => InvokeOutcome.result 0 "output" "")
      = (successfulTextResult "output", ["compute list"], [["compute", "list"]]) := by decide
example :
    let r := runGcloudCommandRun ["compute", "create"]
      { userAllow := some ["compute list"], userDeny := none, defaultDeny := ["interactive"] }
      mockLint (fun _ => InvokeOutcome.result 0 "output" "")
    r.1.isError = true ∧ r.2.2 = [] := by decide
example :
    let r := runGcloudCommandRun ["a", "b", "c"]
      { userAllow := some ["a b"], userDeny := some ["a b"], defaultDeny := ["interactive"] }
      mockLint (fun _ => InvokeOutcome.result 0 "output" "")
    r.1.isError = true ∧ r.2.2 = [] := by decide
example :
    (runGcloudCommandRun ["a", "c"]
      { userAllow := none, userDeny := some [], defaultDeny := ["interactive"] }
      mockLint (fun _ => InvokeOutcome.result 0 "output" "error")).1
      = successfulTextResult "output\nSTDERR:\nerror" := by decide
example :
    (runGcloudCommandRun ["a", "c"]
      { userAllow := none, userDeny := some [], defaultDeny := ["interactive"] }
      mockLint (fun _ => InvokeOutcome.thrown (some "gcloud error"))).1
      = errorTextResult "gcloud error" := by decide
example :
    (runGcloudCommandRun ["a", "c"]
      { userAllow := none, userDeny := some [], defaultDeny := ["interactive"] }
      mockLint (fun _ => InvokeOutcome.thrown none)).1
      = errorTextResult "An unknown error occurred." := by decide
example :
    let r := runGcloudCommandRun ["beta", "compute", "instances", "list"]
      { userAllow := none, userDeny := some ["beta compute instances list"], defaultDeny := ["interactive"] }
      mockLint (fun _ => InvokeOutcome.result 0 "output" "")
    r.1 = errorTextResult (suggestionErrorMessage "gcloud compute instances list")
      ∧ r.2.1.length = 3 ∧ r.2.2 = [] := by decide
example :
    let r := runGcloudCommandRun ["alpha", "compute", "instances", "list"]
      { userAllow := none,
        userDeny := some ["alpha compute instances list", "beta compute instances list"],
        defaultDeny := ["interactive"] }
      mockLint (fun _ => InvokeOutcome.result 0 "output" "")
    r.1 = errorTextResult (suggestionErrorMessage "gcloud compute instances list")
      ∧ r.2.1.length = 3 ∧ r.2.2 = [] := by decide
example :
    let r := runGcloudCommandRun
      ["beta", "compute", "instances", "describe", "my-instance", "--zone", "us-central1-a"]
      { userAllow := none, userDeny := some ["beta compute instances describe"], defaultDeny := ["interactive"] }
      mockLint (fun _ => InvokeOutcome.result 0 "output" "")
    r.1 = errorTextResult
        (suggestionErrorMessage "gcloud compute instances describe my-instance --zone us-central1-a")
      ∧ r.2.1.length = 3
      ∧ r.2.1.getLastD "" = "compute instances describe my-instance --zone us-central1-a" := by decide
example :
    let r := runGcloudCommandRun
      ["beta", "--log-http", "config", "--verbosity", "debug", "list"]
      { userAllow := none, userDeny := some ["beta config list"], defaultDeny := ["interactive"] }
      mockLint (fun _ => InvokeOutcome.result 0 "output" "")
    r.1 = errorTextResult (suggestionErrorMessage "gcloud --log-http config --verbosity debug list")
      ∧ r.2.1.length = 3
      ∧ r.2.1.getLastD "" = "--log-http config --verbosity debug list" := by decide
example :
    let r := runGcloudCommandRun ["beta", "compute", "instances", "list"]
      { userAllow := some ["compute instances list"], userDeny := none, defaultDeny := ["interactive"] }
      mockLint (fun _ => InvokeOutcome.result 0 "output" "")
    r.1 = errorTextResult (suggestionErrorMessage "gcloud compute instances list")
      ∧ r.2.1.length = 3 := by decide
example :
    let r := runGcloudCommandRun ["alpha", "compute", "instances", "list"]
      { userAllow := some ["beta compute"], userDeny := none, defaultDeny := ["interactive"] }
      mockLint (fun _ => InvokeOutcome.result 0 "output" "")
    r.1 = errorTextResult (suggestionErrorMessage "gcloud beta compute instances list")
      ∧ r.2.1.length = 4 := by decide
example :
    let r := runGcloudCommandRun ["compute", "instances", "list"]
      { userAllow := some ["beta compute"], userDeny := none, defaultDeny := ["interactive"] }
      mockLint (fun _ => InvokeOutcome.result 0 "output" "")
    r.1 = errorTextResult (suggestionErrorMessage "gcloud beta compute instances list")
      ∧ r.2.1.length = 3 := by decide

/-- A pattern matches the front of a command exactly when the command is at
least as long and its first `p.length` tokens equal `p` element-wise. -/
theorem tokenPre_iff_take (p c : List String) :
    tokenPre p c = true ↔ (p.length ≤ c.length ∧ c.take p.length = p) := by
  induction p generalizing c with
  | nil => simp [tokenPre]
  | cons x ps ih =>
    cases c with
    | nil => simp [tokenPre]
    | cons y cs =>
      simp only [tokenPre, Bool.and_eq_true, beq_iff_eq, ih, List.length_cons,
        Nat.add_le_add_iff_right, List.take_succ_cons, List.cons.injEq]
      tauto

/-- Stripping a leading track token from a command whose first token is not a
track token leaves the command unchanged. -/
theorem stripTrack_of_headD (c : List String)
    (h : releaseTracks.contains (c.headD "") = false) : stripTrack c = c := by
  cases c with
  | nil => rfl
  | cons t rest =>
    simp only [List.headD_cons] at h
    have e : stripTrack (t :: rest) = if releaseTracks.contains t then rest else t :: rest := rfl
    rw [e, h]
    simp

/-- A deny pattern without a leading track token matches a command by
comparing it against the command with its leading track token stripped. -/
theorem denyPatternMatches_of_headD (p c : List String)
    (h : releaseTracks.contains (p.headD "") = false) :
    denyPatternMatches p c = tokenPre p (stripTrack c) := by
  unfold denyPatternMatches
  rw [h]
  simp

/-- Matching a concatenation of deny lists is matching either deny list. -/
theorem denyCommands_append (a b : List String) (cmd : String) :
    denyCommands (a ++ b) cmd = (denyCommands a cmd || denyCommands b cmd) := by
  simp [denyCommands, List.any_append]

/-- The candidate loop returns the suggestion of the first viable candidate
track, and `none` when no candidate is viable. -/
theorem tryCandidates_fst (acl : AccessControlList) (lint : String → LintOutcome)
    (base : List String) (ts : List String) :
    (tryCandidates acl lint base ts).1
      = (ts.find? (candidateViable acl lint base)).map
          (fun t => "gcloud " ++ joinSp (candidateArgsFor base t)) := by
  induction ts with
  | nil => rfl
  | cons t ts ih =>
    rw [List.find?_cons]
    unfold tryCandidates
    cases h : lint (joinSp (candidateArgsFor base t)) with
    | success parsed =>
      cases hp : (ACL.check acl parsed).permitted with
      | true => simp [candidateViable, h, hp]
      | false => simp [candidateViable, h, hp, ih]
    | failure e => simp [candidateViable, h, ih]
    | thrown m => simp [candidateViable, h, ih]

/-- The candidate loop performs at most one canonicalizer call per candidate
track. -/
theorem tryCandidates_trace_length (acl : AccessControlList)
    (lint : String → LintOutcome) (base : List String) (ts : List String) :
    (tryCandidates acl lint base ts).2.length ≤ ts.length := by
  induction ts with
  | nil => simp [tryCandidates]
  | cons t ts ih =>
    unfold tryCandidates
    cases h : lint (joinSp (candidateArgsFor base t)) with
    | success parsed =>
      cases hp : (ACL.check acl parsed).permitted with
      | true => simp [h, hp]
      | false => simp only [h, hp]; simpa using ih
    | failure e => simp only [h]; simpa using ih
    | thrown m => simp only [h]; simpa using ih

/-- Unfolding of the suggestion engine when the original command
re-canonicalizes successfully. -/
theorem suggestRun_success (args : List String) (acl : AccessControlList)
    (lint : String → LintOutcome) (pc : String)
    (h : lint (joinSp args) = LintOutcome.success pc) :
    suggestRun args acl lint
      = ((tryCandidates acl lint (suggestBase args)
            (trackCandidates (parseReleaseTrack (joinSp args)))).1,
         joinSp args :: (tryCandidates acl lint (suggestBase args)
            (trackCandidates (parseReleaseTrack (joinSp args)))).2) := by
  unfold suggestRun
  simp only [h]

/-- At most three candidate tracks exist for any current track. -/
theorem trackCandidates_length_le (current : String) :
    (trackCandidates current).length ≤ 3 :=
  List.length_filter_le _ _

/-- The `preview` track is never a candidate track. -/
theorem preview_not_mem_trackCandidates (current : String) :
    "preview" ∉ trackCandidates current := by
  intro h
  rw [trackCandidates, List.mem_filter] at h
  simp at h

/-- The current track is excluded from its own candidate list. -/
theorem current_not_mem_trackCandidates (current : String) :
    current ∉ trackCandidates current := by
  intro h
  rw [trackCandidates, List.mem_filter] at h
  simp at h

/-- C1 (counterexample): the claimed track-invariance equation
`denyMatches(P, C) = denyMatches(P, stripTrack(C))` fails, as stated for
every command token sequence, at the pattern `compute` (whose first token is
not a track identifier) and the command `alpha beta compute`: the pattern
does not match the raw command, but it does match the command with its
leading track token stripped, because the stripped command begins with a
second track token that the matcher then strips again. -/
theorem c1_counterexample :
    releaseTracks.contains ((["compute"] : List String).headD "") = false
    ∧ denyPatternMatches ["compute"] ["alpha", "beta", "compute"] = false
    ∧ denyPatternMatches ["compute"] (stripTrack ["alpha", "beta", "compute"]) = true :=
  ⟨by decide, by decide, by decide⟩

/-- C1 (amended): for every deny pattern whose first token is not a
recognized release-track identifier and every command token sequence that
does not begin with two release-track tokens (after stripping one leading
track token the head is not again a track token), deny-matching is
track-invariant: the pattern matches the command exactly when it matches the
command with any leading release-track token stripped, so a GA-level deny
entry blocks the GA, alpha, beta, and preview forms of the command alike. -/
theorem c1_deny_track_invariance (p c : List String)
    (hp : releaseTracks.contains (p.headD "") = false)
    (hc : releaseTracks.contains ((stripTrack c).headD "") = false) :
    denyPatternMatches p c = denyPatternMatches p (stripTrack c) := by
  rw [denyPatternMatches_of_headD p c hp, denyPatternMatches_of_headD p (stripTrack c) hp,
    stripTrack_of_headD (stripTrack c) hc]

/-- C1 (witness): the amended invariance at the pattern `compute instances`
and the command `beta compute instances list`. -/
theorem c1_deny_track_invariance_witness :
    releaseTracks.contains ((["compute", "instances"] : List String).headD "") = false
    ∧ releaseTracks.contains ((stripTrack ["beta", "compute", "instances", "list"]).headD "") = false
    ∧ denyPatternMatches ["compute", "instances"] ["beta", "compute", "instances", "list"]
        = denyPatternMatches ["compute", "instances"]
            (stripTrack ["beta", "compute", "instances", "list"]) :=
  ⟨by decide, by decide,
    c1_deny_track_invariance ["compute", "instances"] ["beta", "compute", "instances", "list"]
      (by decide) (by decide)⟩

/-- C2: a deny pattern whose first token is a recognized release-track
identifier `t` matches a command only if the command's first token equals
`t`. -/
theorem c2_track_pattern_requires_track (t : String) (ps c : List String)
    (ht : releaseTracks.contains t = true)
    (hm : denyPatternMatches (t :: ps) c = true) :
    c.headD "" = t := by
  unfold denyPatternMatches at hm
  rw [List.headD_cons, ht] at hm
  simp only [if_true] at hm
  cases c with
  | nil => simp [tokenPre] at hm
  | cons y cs =>
    simp only [tokenPre, Bool.and_eq_true, beq_iff_eq] at hm
    simp only [List.headD_cons]
    exact hm.1.symm

/-- C2 (witness): the single-token pattern `alpha` matches `alpha compute`
but matches neither `compute` nor `beta compute`; applying the theorem at
the match yields that the matched command's first token is `alpha`. -/
theorem c2_track_pattern_requires_track_witness :
    denyCommands ["alpha"] "alpha compute" = true
    ∧ denyCommands ["alpha"] "compute" = false
    ∧ denyCommands ["alpha"] "beta compute" = false
    ∧ (["alpha", "compute"] : List String).headD "" = "alpha" :=
  ⟨by decide, by decide, by decide,
    c2_track_pattern_requires_track "alpha" [] ["alpha", "compute"] (by decide) (by decide)⟩

/-- C3: whenever the union of the user deny-set and the default deny-set
matches a command, `ACL.check` returns not-permitted — regardless of the
allow-set (the first implication holds for every ACL, including those whose
allow-set also matches the command) — and the default deny-set alone matching
already forces not-permitted, for every user configuration, so it is never
bypassed by an allow-set. -/
theorem c3_deny_wins (acl : AccessControlList) (path : String) :
    (denyCommands (acl.userDeny.getD [] ++ acl.defaultDeny) path = true →
      (ACL.check acl path).permitted = false)
    ∧ (denyCommands acl.defaultDeny path = true →
      (ACL.check acl path).permitted = false) := by
  constructor
  · intro h
    simp [ACL.check, h]
  · intro h
    have hu : denyCommands (acl.userDeny.getD [] ++ acl.defaultDeny) path = true := by
      rw [denyCommands_append]
      simp [h]
    simp [ACL.check, hu]

/-- C3 (witness): with `a b` both denied and allowed, the command `a b c` is
not permitted — deny wins over the overlapping allow entry. -/
theorem c3_deny_wins_witness :
    (ACL.check
      { userAllow := some ["a b"], userDeny := some ["a b"], defaultDeny := ["interactive"] }
      "a b c").permitted = false :=
  (c3_deny_wins
    { userAllow := some ["a b"], userDeny := some ["a b"], defaultDeny := ["interactive"] }
    "a b c").1 (by decide)

/-- C4: an allow pattern matches exactly when the first `len(P)` tokens of
the command equal the pattern token-for-token with no release-track
stripping — so the allow entry `compute instances list` does not match
`beta compute instances list` — and an empty allow-set matches every
command. -/
theorem c4_allow_exact :
    (∀ p c, allowPatternMatches p c = true ↔ (p.length ≤ c.length ∧ c.take p.length = p))
    ∧ allowCommands ["compute instances list"] "beta compute instances list" = false
    ∧ (∀ cmd, allowCommands [] cmd = true) :=
  ⟨fun p c => tokenPre_iff_take p c, by decide, fun _ => rfl⟩

/-- C4 (witness): the allow characterization at the pattern
`compute instances` and the command `compute instances list`. -/
theorem c4_allow_exact_witness :
    allowPatternMatches ["compute", "instances"] ["compute", "instances", "list"] = true
      ↔ ((["compute", "instances"] : List String).length
            ≤ (["compute", "instances", "list"] : List String).length
          ∧ (["compute", "instances", "list"] : List String).take
              (["compute", "instances"] : List String).length = ["compute", "instances"]) :=
  c4_allow_exact.1 ["compute", "instances"] ["compute", "instances", "list"]

/-- C7: pattern matching is token-granular: a match requires the command to
be at least as long as the pattern and the first `len(P)` command tokens to
equal the pattern element-wise, so the single-token pattern `app` matches
`app` and `app deploy` but never `apphub`, for allow-rules and deny-rules
alike. -/
theorem c7_token_granular :
    (∀ p c, tokenPre p c = true ↔ (p.length ≤ c.length ∧ c.take p.length = p))
    ∧ allowCommands ["app"] "app" = true
    ∧ allowCommands ["app"] "app deploy" = true
    ∧ allowCommands ["app"] "apphub" = false
    ∧ denyCommands ["app"] "app" = true
    ∧ denyCommands ["app"] "app deploy" = true
    ∧ denyCommands ["app"] "apphub" = false :=
  ⟨tokenPre_iff_take, by decide, by decide, by decide, by decide, by decide, by decide⟩

/-- C7 (witness): the characterization at the pattern `app` and the command
`apphub`: the match fails because the single tokens differ. -/
theorem c7_token_granular_witness :
    tokenPre ["app"] ["apphub"] = true
      ↔ ((["app"] : List String).length ≤ (["apphub"] : List String).length
          ∧ (["apphub"] : List String).take (["app"] : List String).length = ["app"]) :=
  c7_token_granular.1 ["app"] ["apphub"]

/-- When the original command re-canonicalizes successfully, the suggestion
engine returns the rendering of the first viable candidate track in priority
order, and `none` when no candidate is viable. -/
theorem suggest_eq_find (args : List String) (acl : AccessControlList)
    (lint : String → LintOutcome) (pc : String)
    (h : lint (joinSp args) = LintOutcome.success pc) :
    findSuggestedAlternativeCommand args acl lint
      = ((trackCandidates (parseReleaseTrack (joinSp args))).find?
            (candidateViable acl lint (suggestBase args))).map
          (fun t => "gcloud " ++ joinSp (candidateArgsFor (suggestBase args) t)) := by
  unfold findSuggestedAlternativeCommand
  rw [suggestRun_success args acl lint pc h]
  exact tryCandidates_fst acl lint (suggestBase args) _

/-- C5: for a command whose original argument string re-canonicalizes, the
suggestion engine tries the candidate tracks `[GA, beta, alpha]` with the
current track excluded, in that order, returns `"gcloud "` plus the joined
candidate arguments of the first candidate whose canonical path the ACL
permits (`List.find?` returns the first list entry satisfying the
predicate), never offers `preview`, and returns `none` when no candidate is
permitted. -/
theorem c5_suggestion_priority (args : List String) (acl : AccessControlList)
    (lint : String → LintOutcome) (pc : String)
    (h : lint (joinSp args) = LintOutcome.success pc) :
    findSuggestedAlternativeCommand args acl lint
      = ((trackCandidates (parseReleaseTrack (joinSp args))).find?
            (candidateViable acl lint (suggestBase args))).map
          (fun t => "gcloud " ++ joinSp (candidateArgsFor (suggestBase args) t))
    ∧ trackCandidates (parseReleaseTrack (joinSp args))
        = ["", "beta", "alpha"].filter (fun t => t ≠ parseReleaseTrack (joinSp args))
    ∧ parseReleaseTrack (joinSp args) ∉ trackCandidates (parseReleaseTrack (joinSp args))
    ∧ "preview" ∉ trackCandidates (parseReleaseTrack (joinSp args)) :=
  ⟨suggest_eq_find args acl lint pc h, rfl,
    current_not_mem_trackCandidates _, preview_not_mem_trackCandidates _⟩

/-- C5 (witness): a denied `beta` command is recovered as its GA form, the
first candidate in priority order. -/
theorem c5_suggestion_priority_witness :
    findSuggestedAlternativeCommand ["beta", "components", "list"]
      { userAllow := some [], userDeny := some [], defaultDeny := [] } idLint
      = some "gcloud components list" := by
  rw [(c5_suggestion_priority ["beta", "components", "list"]
      { userAllow := some [], userDeny := some [], defaultDeny := [] } idLint
      "beta components list" (by decide)).1]
  decide

/-- C6: on every input, the first canonicalizer call of the suggestion
engine is the re-validation of the joined original arguments, at most 3
further canonicalizer calls are made, and when the re-validation fails or
throws the engine returns `none` immediately with no candidate call made. -/
theorem c6_lint_budget (args : List String) (acl : AccessControlList)
    (lint : String → LintOutcome) :
    (suggestRun args acl lint).2.headD "" = joinSp args
    ∧ (suggestRun args acl lint).2.length ≤ 1 + 3
    ∧ ((suggestRun args acl lint).2.drop 1).length ≤ 3
    ∧ (∀ e, lint (joinSp args) = LintOutcome.failure e →
        suggestRun args acl lint = (none, [joinSp args]))
    ∧ (∀ m, lint (joinSp args) = LintOutcome.thrown m →
        suggestRun args acl lint = (none, [joinSp args])) := by
  cases h : lint (joinSp args) with
  | success pc =>
    rw [suggestRun_success args acl lint pc h]
    have h1 := tryCandidates_trace_length acl lint (suggestBase args)
      (trackCandidates (parseReleaseTrack (joinSp args)))
    have h2 := trackCandidates_length_le (parseReleaseTrack (joinSp args))
    refine ⟨rfl, ?_, ?_, ?_, ?_⟩
    · simp only [List.length_cons]
      omega
    · simp only [List.drop_succ_cons, List.drop_zero]
      omega
    · intro e he
      cases he
    · intro m hm
      cases hm
  | failure e =>
    have hs : suggestRun args acl lint = (none, [joinSp args]) := by
      unfold suggestRun
      simp only [h]
    rw [hs]
    refine ⟨rfl, by simp, by simp, fun _ _ => rfl, ?_⟩
    intro m hm
    cases hm
  | thrown m0 =>
    have hs : suggestRun args acl lint = (none, [joinSp args]) := by
      unfold suggestRun
      simp only [h]
    rw [hs]
    refine ⟨rfl, by simp, by simp, ?_, fun _ _ => rfl⟩
    intro e he
    cases he

/-- C6 (witness): on a command whose re-validation fails, the engine returns
`none` having made exactly the one re-validation call. -/
theorem c6_lint_budget_witness :
    suggestRun ["components", "list"]
      { userAllow := some [], userDeny := some [], defaultDeny := [] } failLint
      = (none, ["components list"]) :=
  (c6_lint_budget ["components", "list"]
      { userAllow := some [], userDeny := some [], defaultDeny := [] } failLint).2.2.2.1
    "invalid command" (by decide)

/-- C8: a canonicalizer failure or thrown error on an individual suggestion
candidate is local: whenever any candidate track is viable — even if the
canonicalizer fails or throws on earlier candidates — the engine still
returns a suggestion, and when no candidate is viable it returns `none`;
no candidate failure is ever propagated to the caller. -/
theorem c8_candidate_failure_local (args : List String) (acl : AccessControlList)
    (lint : String → LintOutcome) (pc : String)
    (h : lint (joinSp args) = LintOutcome.success pc) :
    ((∃ t ∈ trackCandidates (parseReleaseTrack (joinSp args)),
        candidateViable acl lint (suggestBase args) t = true) →
      ∃ s, findSuggestedAlternativeCommand args acl lint = some s)
    ∧ ((∀ t ∈ trackCandidates (parseReleaseTrack (joinSp args)),
        candidateViable acl lint (suggestBase args) t = false) →
      findSuggestedAlternativeCommand args acl lint = none) := by
  have hfind := suggest_eq_find args acl lint pc h
  constructor
  · rintro ⟨t, ht, hv⟩
    rw [hfind]
    have hsome : ((trackCandidates (parseReleaseTrack (joinSp args))).find?
        (candidateViable acl lint (suggestBase args))).isSome := by
      rw [List.find?_isSome]
      exact ⟨t, ht, hv⟩
    obtain ⟨u, hu⟩ := Option.isSome_iff_exists.mp hsome
    rw [hu]
    exact ⟨_, rfl⟩
  · intro hall
    rw [hfind]
    have hnone : (trackCandidates (parseReleaseTrack (joinSp args))).find?
        (candidateViable acl lint (suggestBase args)) = none := by
      rw [List.find?_eq_none]
      intro x hx
      simp [hall x hx]
    rw [hnone]
    rfl

/-- C8 (witness): with a canonicalizer that throws on the `beta` candidate
but succeeds on the `alpha` candidate, the engine still returns a
suggestion. -/
theorem c8_candidate_failure_local_witness :
    ∃ s, findSuggestedAlternativeCommand ["components", "list"]
      { userAllow := some [], userDeny := some [], defaultDeny := [] } flakyLint = some s :=
  (c8_candidate_failure_local ["components", "list"]
      { userAllow := some [], userDeny := some [], defaultDeny := [] } flakyLint
      "components list" (by decide)).1
    ⟨"alpha", by decide, by decide⟩

/-- C9: the reserved 3-element invocation `["gcloud-mcp", "debug", "config"]`
is answered with `ACL.print`'s output directly, with no canonicalizer and no
executor call; `ACL.print` does not depend on the default deny entries, and
renders exactly one of the `Allowlisted commands:` or `Denylisted commands:`
headers followed by one `- <pattern>` line per user-configured pattern. -/
theorem c9_debug_config (acl : AccessControlList) (lint : String → LintOutcome)
    (invoke : List String → InvokeOutcome) :
    runGcloudCommandRun ["gcloud-mcp", "debug", "config"] acl lint invoke
      = (successfulTextResult (ACL.print acl), [], [])
    ∧ (∀ d, ACL.print { acl with defaultDeny := d } = ACL.print acl)
    ∧ ((∃ ps, acl.userAllow = some ps
          ∧ ACL.print acl = "Allowlisted commands:" ++ renderPatternLines ps)
        ∨ (acl.userAllow = none
          ∧ ACL.print acl = "Denylisted commands:"
              ++ renderPatternLines (acl.userDeny.getD []))) := by
  refine ⟨rfl, ?_, ?_⟩
  · intro d
    cases acl with
    | mk ua ud dd => cases ua <;> rfl
  · cases acl with
    | mk ua ud dd =>
      cases ua with
      | some ps => exact Or.inl ⟨ps, rfl, rfl⟩
      | none => exact Or.inr ⟨rfl, rfl⟩

/-- C9 (witness): the reserved invocation against a deny-configured ACL
returns the denylist rendering with no canonicalizer or executor call. -/
theorem c9_debug_config_witness :
    runGcloudCommandRun ["gcloud-mcp", "debug", "config"]
      { userAllow := none, userDeny := some ["compute list"], defaultDeny := ["interactive"] }
      mockLint invokeOk
      = (successfulTextResult "Denylisted commands:\n- compute list", [], []) := by
  rw [(c9_debug_config
    { userAllow := none, userDeny := some ["compute list"], defaultDeny := ["interactive"] }
    mockLint invokeOk).1]
  decide

/-- C10: when the invocation is not the reserved one, the canonicalizer
succeeds, and the ACL permits the canonical path, the executor is invoked
exactly once with the original raw argument array — not with the canonical
path used for the permit decision. -/
theorem c10_executor_gets_raw_args (args : List String) (acl : AccessControlList)
    (lint : String → LintOutcome) (invoke : List String → InvokeOutcome) (pc : String)
    (hne : (joinSp args == "gcloud-mcp debug config") = false)
    (hl : lint (joinSp args) = LintOutcome.success pc)
    (hp : (ACL.check acl pc).permitted = true) :
    (runGcloudCommandRun args acl lint invoke).2.2 = [args] := by
  unfold runGcloudCommandRun
  rw [hne]
  simp only [Bool.false_eq_true, if_false, hl, hp, if_true]
  cases hi : invoke args <;> simp

/-- C10 (witness): a permitted command is executed with its original
argument array, flags and all. -/
theorem c10_executor_gets_raw_args_witness :
    (runGcloudCommandRun ["compute", "create"]
      { userAllow := none, userDeny := some ["compute list"], defaultDeny := ["interactive"] }
      mockLint invokeOk).2.2 = [["compute", "create"]] :=
  c10_executor_gets_raw_args ["compute", "create"]
    { userAllow := none, userDeny := some ["compute list"], defaultDeny := ["interactive"] }
    mockLint invokeOk "compute create" (by decide) (by decide) (by decide)
